import Mathlib

/-!
Verification of the gulp task-runner file of the canvas-gauges repository
(`gulpfile.js`).  The development shallowly embeds the logic-bearing parts
of the file: the coverage-report percentage extractor, the badge color
classification, the badge URL construction, the event handlers of the
`build`, `test:spec` and `test:e2e` tasks, and the task registration graph.
Strings are modelled as `List Char`; the JavaScript number produced by
`parseFloat` is modelled as an exact rational (decimal literals are taken
at face value, without IEEE-754 rounding), with distinguished `nan` and
infinity values so that the comparison semantics of `<` on non-numbers is
preserved.
-/

namespace CanvasGauges

/-! ## Character classes used by the ANSI-escape stripping regular expression

`gulpfile.js` builds the regex
`[\u001b\u009b][[()#;?]*(?:[0-9]{1,4}(?:;[0-9]{0,4})*)?[0-9A-ORZcf-nqry=><]`
and removes every match from the coverage report (global replace with the
empty string). -/

/-- The two introducer characters `\u001b` (ESC) and `\u009b` (CSI). -/
def isIntro (c : Char) : Bool :=
  c = Char.ofNat 0x1b || c = Char.ofNat 0x9b

/-- The character class `[[()#;?]`. -/
def isClsB (c : Char) : Bool :=
  c = '[' || c = '(' || c = ')' || c = '#' || c = ';' || c = '?'

/-- The character class `[0-9]`. -/
def isDigitC (c : Char) : Bool :=
  decide (48 ≤ c.toNat ∧ c.toNat ≤ 57)

/-- The final character class `[0-9A-ORZcf-nqry=><]`. -/
def isFinalC (c : Char) : Bool :=
  isDigitC c || decide (65 ≤ c.toNat ∧ c.toNat ≤ 79) || c = 'R' || c = 'Z' ||
  c = 'c' || decide (102 ≤ c.toNat ∧ c.toNat ≤ 110) || c = 'q' || c = 'r' ||
  c = 'y' || c = '=' || c = '>' || c = '<'

/-- Number of leading `[0-9]` characters. -/
def leadingDigits (cs : List Char) : Nat :=
  (cs.takeWhile isDigitC).length

/-- Remainders after matching `[0-9]{lo,hi}` at `cs`, in greedy
(backtracking) priority order: most digits first, down to `lo`. -/
def digitAlts (lo hi : Nat) (cs : List Char) : List (List Char) :=
  let k := min hi (leadingDigits cs)
  (List.range (k + 1)).reverse.filterMap
    (fun j => if lo ≤ j then some (cs.drop j) else none)

/-- Remainders after matching `(?:;[0-9]{0,4})*` at `cs`, in greedy priority
order: more iterations first, each iteration's digit count greedy.  `fuel`
bounds the recursion; every iteration consumes the leading `;`, so
`cs.length` is always enough fuel. -/
def semiStarAlts : Nat → List Char → List (List Char)
  | 0, cs => [cs]
  | fuel + 1, cs =>
    match cs with
    | ';' :: rest =>
      ((digitAlts 0 4 rest).flatMap (fun r => semiStarAlts fuel r)) ++ [cs]
    | _ => [cs]

/-- Match `(?:[0-9]{1,4}(?:;[0-9]{0,4})*)?[0-9A-ORZcf-nqry=><]` at `cs`
(the part of the regex after the introducer and the `[[()#;?]*` run),
returning the remainder after the match.  Alternatives are tried in the
regex engine's order: the optional group present first (digits greedy,
then the semicolon star greedy), then the group absent. -/
def matchTail (cs : List Char) : Option (List Char) :=
  let withGroup :=
    (digitAlts 1 4 cs).flatMap (fun r => semiStarAlts r.length r)
  let alts := withGroup ++ [cs]
  (alts.find? (fun r =>
    match r with
    | [] => false
    | c :: _ => isFinalC c)).map List.tail

/-- Match the whole escape-sequence regex at the start of `cs`, returning
the remainder after the match.  The `[[()#;?]*` run can be taken greedily
without backtracking: none of its characters can be consumed by the
optional digit group (which starts with a digit) or by the final class. -/
def matchEsc (cs : List Char) : Option (List Char) :=
  match cs with
  | [] => none
  | c :: rest =>
    if isIntro c then matchTail (rest.dropWhile isClsB) else none

/-- Fuelled scan of `.replace(rx, '')`: at each position, if the regex
matches, drop the match and continue after it; otherwise keep the
character.  Each step consumes at least one character, so fuel equal to
the input length is always enough. -/
def stripAnsiGo : Nat → List Char → List Char
  | 0, cs => cs
  | _ + 1, [] => []
  | fuel + 1, c :: rest =>
    match matchEsc (c :: rest) with
    | some rem => stripAnsiGo fuel rem
    | none => c :: stripAnsiGo fuel rest

/-- `.replace(rx, '')` with the ANSI-escape regex of `gulpfile.js`. -/
def stripAnsi (cs : List Char) : List Char :=
  stripAnsiGo cs.length cs

/-! ## JavaScript string operations used by the extractor -/

/-- `.split(/\r?\n/)`: split on `\r\n` or `\n`; a lone `\r` does not
split. -/
def splitLines : List Char → List (List Char)
  | [] => [[]]
  | '\r' :: '\n' :: rest => [] :: splitLines rest
  | '\n' :: rest => [] :: splitLines rest
  | c :: rest =>
    match splitLines rest with
    | [] => [[c]]
    | a :: as => (c :: a) :: as

/-- `.split(sep)` for a one-character separator: split at every
occurrence; the result is never empty. -/
def splitOnChar (sep : Char) (cs : List Char) : List (List Char) :=
  cs.foldr
    (fun c acc =>
      if c = sep then [] :: acc
      else
        match acc with
        | [] => [[c]]
        | a :: as => (c :: a) :: as)
    [[]]

/-- The WhiteSpace and LineTerminator code points removed by the
JavaScript `String.prototype.trim`. -/
def jsWhiteChars : List Char :=
  [Char.ofNat 0x09, Char.ofNat 0x0a, Char.ofNat 0x0b, Char.ofNat 0x0c,
   Char.ofNat 0x0d, Char.ofNat 0x20, Char.ofNat 0xa0, Char.ofNat 0x1680,
   Char.ofNat 0x2000, Char.ofNat 0x2001, Char.ofNat 0x2002,
   Char.ofNat 0x2003, Char.ofNat 0x2004, Char.ofNat 0x2005,
   Char.ofNat 0x2006, Char.ofNat 0x2007, Char.ofNat 0x2008,
   Char.ofNat 0x2009, Char.ofNat 0x200a, Char.ofNat 0x2028,
   Char.ofNat 0x2029, Char.ofNat 0x202f, Char.ofNat 0x205f,
   Char.ofNat 0x3000, Char.ofNat 0xfeff]

/-- Whether `c` is trimmed by the JavaScript `trim`. -/
def isJsWhite (c : Char) : Bool :=
  jsWhiteChars.contains c

/-- `.trim()`. -/
def jsTrim (cs : List Char) : List Char :=
  ((cs.dropWhile isJsWhite).reverse.dropWhile isJsWhite).reverse

/-! ## The coverage percentage extractor (`gulpfile.js` lines 166-178)

```
fs.readFileSync('./coverage/report/coverage.txt', { encoding: 'utf8' })
  .replace(rx, '').split(/\r?\n/)[2].split(':')[1].split('(')[0].trim()
```

Indexing past the end of a JavaScript array yields `undefined`, and
calling `.split` on `undefined` throws an uncaught `TypeError`; the
embedding returns `none` exactly in those cases (`[2]` missing, or the
`':'` split lacking a second segment).  `.split('(')[0]` always exists
because `split` never returns an empty array. -/
def extractCoverage (report : List Char) : Option (List Char) := do
  let line ← (splitLines (stripAnsi report))[2]?
  let seg ← (splitOnChar ':' line)[1]?
  let seg2 ← (splitOnChar '(' seg)[0]?
  pure (jsTrim seg2)

/-! ## `parseFloat` and the color classification (`gulpfile.js` lines 179-183)

```
let color = 'green';
if (parseFloat(coverage) < 90) { color = 'red'; }
```

`parseFloat` is the ECMAScript built-in: skip leading white space, then
convert the longest prefix that is a valid `StrDecimalLiteral` (optional
sign, then `Infinity`, or digits with an optional fraction and exponent);
if no prefix is valid the result is `NaN`.  The numeric value is modelled
as an exact rational: the decimal literals appearing in coverage reports
are short, so the IEEE-754 rounding step is the identity on the inputs of
interest and is omitted. -/

/-- A JavaScript number as produced by `parseFloat`. -/
inductive JsVal where
  | nan : JsVal
  | posInf : JsVal
  | negInf : JsVal
  | num (q : ℚ) : JsVal
deriving DecidableEq

/-- The JavaScript comparison `x < 90`: `false` on `NaN` and `+Infinity`,
`true` on `-Infinity`. -/
def jsLtNinety : JsVal → Bool
  | .nan => false
  | .posInf => false
  | .negInf => true
  | .num q => decide (q < 90)

/-- Value of a digit string read as a natural number. -/
def digitsVal (ds : List Char) : Nat :=
  ds.foldl (fun a c => a * 10 + (c.toNat - 48)) 0

/-- Value of an integer part and a fraction part. -/
def deciVal (intPart fracPart : List Char) : ℚ :=
  (digitsVal intPart : ℚ) + (digitsVal fracPart : ℚ) / (10 : ℚ) ^ fracPart.length

/-- Apply an `ExponentPart` (`e`/`E`, optional sign, digits) if one
immediately follows; an `e` not followed by digits is not part of the
literal and is ignored. -/
def applyExp (v : ℚ) (cs : List Char) : ℚ :=
  match cs with
  | c :: rest =>
    if c = 'e' || c = 'E' then
      match rest with
      | '+' :: r => if leadingDigits r = 0 then v
                    else v * (10 : ℚ) ^ (digitsVal (r.takeWhile isDigitC) : ℤ)
      | '-' :: r => if leadingDigits r = 0 then v
                    else v * (10 : ℚ) ^ (-(digitsVal (r.takeWhile isDigitC) : ℤ))
      | r => if leadingDigits r = 0 then v
             else v * (10 : ℚ) ^ (digitsVal (r.takeWhile isDigitC) : ℤ)
    else v
  | [] => v

/-- Longest unsigned decimal-literal prefix: `Digits . Digits? Exp?`,
`. Digits Exp?`, or `Digits Exp?`; `none` when not even one digit is
present. -/
def parseUnsigned (cs : List Char) : Option ℚ :=
  let intPart := cs.takeWhile isDigitC
  let rest := cs.drop intPart.length
  match intPart, rest with
  | [], '.' :: rest2 =>
    let frac := rest2.takeWhile isDigitC
    if frac.isEmpty then none
    else some (applyExp (deciVal [] frac) (rest2.drop frac.length))
  | [], _ => none
  | _, '.' :: rest2 =>
    let frac := rest2.takeWhile isDigitC
    some (applyExp (deciVal intPart frac) (rest2.drop frac.length))
  | _, _ => some (applyExp (deciVal intPart []) rest)

/-- The ECMAScript `parseFloat` on a list of characters. -/
def parseFloat (cs : List Char) : JsVal :=
  let cs1 := cs.dropWhile isJsWhite
  match cs1 with
  | '-' :: r =>
    if r.take 8 = ("Infinity").toList then .negInf
    else
      match parseUnsigned r with
      | some v => .num (-v)
      | none => .nan
  | '+' :: r =>
    if r.take 8 = ("Infinity").toList then .posInf
    else
      match parseUnsigned r with
      | some v => .num v
      | none => .nan
  | r =>
    if r.take 8 = ("Infinity").toList then .posInf
    else
      match parseUnsigned r with
      | some v => .num v
      | none => .nan

/-- The two badge colors the task can produce. -/
inductive BadgeColor where
  | green : BadgeColor
  | red : BadgeColor
deriving DecidableEq

/-- Lines 179-183: `color` starts as `'green'` and becomes `'red'` exactly
when `parseFloat(coverage) < 90`. -/
def colorOf (coverage : List Char) : BadgeColor :=
  if jsLtNinety (parseFloat coverage) then .red else .green

/-- The color as the text interpolated into the badge URL. -/
def colorText : BadgeColor → List Char
  | .green => ("green").toList
  | .red => ("red").toList

/-! ## Badge URL construction (`gulpfile.js` lines 185-187)

```
let url = 'https://img.shields.io/badge/coverage-' +
    coverage.replace(/%/g, '%25') + '-' + color + '.svg';
``` -/

/-- `.replace(/%/g, '%25')`: every `%` becomes `%25`, all other characters
are unchanged. -/
def escapePct (cs : List Char) : List Char :=
  cs.flatMap (fun c => if c = '%' then ['%', '2', '5'] else [c])

/-- The badge URL built from the percentage string and the color. -/
def buildBadgeUrl (coverage : List Char) (color : BadgeColor) : List Char :=
  ("https://img.shields.io/badge/coverage-").toList ++
  escapePct coverage ++ ['-'] ++ colorText color ++ (".svg").toList

/-! ## Bundle pipeline error handler (`gulpfile.js` lines 62-82)

The `build` task pipes `browserify(...).transform(babelify, ...).bundle()`
through an `'error'` listener:

```
.on('error', function(err) { gutil.log(err); this.emit('end'); })
```

The handler is modelled as the ordered list of actions it performs on the
stream; an error message is a `List Char`. -/

/-- An action the bundle stream's error handler may perform. -/
inductive StreamAction where
  | log (err : List Char) : StreamAction
  | emitEnd : StreamAction
  | emitError (err : List Char) : StreamAction
  | exitProcess (code : Nat) : StreamAction
deriving DecidableEq

/-- The `'error'` handler of the `build` bundle: log the error, then emit
`'end'` on the stream; nothing else (no rethrow, no process exit). -/
def bundleOnError (err : List Char) : List StreamAction :=
  [.log err, .emitEnd]

/-! ## Spec test runner completion callback (`gulpfile.js` lines 124-134)

```
let server = new KarmaServer({ configFile: ..., singleRun: true }, () => {
    server && server.stop();
    done();
}).start();
```

The callback is modelled as a function of the (possibly absent) server
handle bound to `server` at the time the callback fires, and of the exit
code Karma passes to the callback — which the arrow function ignores. -/

/-- An opaque-to-the-task server handle; only identity matters. -/
structure ServerHandle where
  id : Nat
deriving DecidableEq

/-- An action of the `test:spec` completion callback. -/
inductive SpecAction where
  | stopServer (h : ServerHandle) : SpecAction
  | signalDone : SpecAction
deriving DecidableEq

set_option linter.unusedVariables false in
/-- The completion callback: `server && server.stop(); done();` — stop the
handle when one is bound, then signal task completion.  `karmaExitCode` is
the argument Karma passes; the callback does not inspect it. -/
def specTestCallback (server : Option ServerHandle) (karmaExitCode : Nat) :
    List SpecAction :=
  (match server with
   | some h => [.stopServer h]
   | none => []) ++ [.signalDone]

/-! ## End-to-end runner events and badge generation (`gulpfile.js` lines 152-199)

```
.once('error', () => process.exit(1))
.once('end', () => { if (process.env.TRAVIS) { setTimeout(() =>
    process.exit(0), 500); } ... badge generation ... });
``` -/

/-- The value delivered to the `http.get` response callback: either a
value that is `instanceof Error`, or a readable response stream (its body
as a list of chunks). -/
inductive BadgeResponse where
  | isError (err : List Char) : BadgeResponse
  | stream (body : List (List Char)) : BadgeResponse
deriving DecidableEq

/-- An action of the badge-fetch response handler. -/
inductive BadgeAction where
  | logError (err : List Char) : BadgeAction
  | pipeToFile (path : List Char) : BadgeAction
  | exitProcess (code : Nat) : BadgeAction
deriving DecidableEq

/-- The `http.get` response handler (lines 189-198): when the response is
itself an error object, log it via `console.error` and exit with code 0
(`process.exit` terminates, so the pipe below it is not reached);
otherwise pipe the response into `test-coverage.svg` and exit with code 0
on the `'finish'` event. -/
def badgeResponseHandler : BadgeResponse → List BadgeAction
  | .isError e => [.logError e, .exitProcess 0]
  | .stream _ => [.pipeToFile (("test-coverage.svg").toList), .exitProcess 0]

/-- The events the `test:e2e` stream handlers react to.  `endEvt` carries
whether the `TRAVIS` environment flag is set. -/
inductive E2EEvent where
  | errorEvt : E2EEvent
  | endEvt (travisSet : Bool) : E2EEvent
deriving DecidableEq

/-- A top-level action of the `test:e2e` event handlers. -/
inductive E2EAction where
  | exitProcess (code : Nat) : E2EAction
  | scheduleExit (delayMs code : Nat) : E2EAction
  | generateBadge : E2EAction
deriving DecidableEq

/-- The `test:e2e` handlers: on `'error'`, exit the process with code 1
(and nothing else — badge generation never starts); on `'end'`, when the
CI flag is set first schedule a delayed `process.exit(0)` after 500 ms,
then run the badge-generation block. -/
def e2eEventActions : E2EEvent → List E2EAction
  | .errorEvt => [.exitProcess 1]
  | .endEvt travis =>
    (if travis then [.scheduleExit 500 0] else []) ++ [.generateBadge]

/-! ## The task registration graph (`gulpfile.js` task declarations)

Each `gulp.task(name, deps, action)` call registers a task with its
declared prerequisite list; gulp runs every declared prerequisite to
completion before the task's own action starts.  `actionStarts` records
the tasks the action itself launches via `gulp.start` (only the composite
`test` task does so; the `watch` task merely registers a file watcher
whose change events start `build`, so its action starts nothing
directly). -/

/-- A registered gulp task: declared prerequisites and the tasks its
action starts explicitly. -/
structure GulpTask where
  deps : List String
  actionStarts : List String
deriving DecidableEq

/-- The task registry built by `gulpfile.js`. -/
def gulpRegistry (name : String) : Option GulpTask :=
  if name = "help" then some ⟨[], []⟩
  else if name = "clean" then some ⟨[], []⟩
  else if name = "doc" then some ⟨[], []⟩
  else if name = "build" then some ⟨["clean"], []⟩
  else if name = "watch" then some ⟨["build"], []⟩
  else if name = "gzip" then some ⟨["build"], []⟩
  else if name = "lint" then some ⟨[], []⟩
  else if name = "test:spec" then some ⟨["lint"], []⟩
  else if name = "test:e2e" then some ⟨[], []⟩
  else if name = "test" then some ⟨["test:spec"], ["test:e2e"]⟩
  else if name = "default" then some ⟨["help"], []⟩
  else none

/-- Sequential execution trace of running a task: declared prerequisites
run to completion first, then the task itself, then anything its action
starts.  The registered graph is a tree from each root, so no
deduplication is needed; `fuel` bounds the recursion depth. -/
def runTrace : Nat → String → List String
  | 0, _ => []
  | fuel + 1, name =>
    match gulpRegistry name with
    | none => []
    | some t =>
      (t.deps.flatMap (runTrace fuel)) ++ [name] ++
      (t.actionStarts.flatMap (runTrace fuel))

/-! ## Spec-side definitions for the refinement claims -/

/-- The extraction pipeline exactly as the specification words it: strip
terminal escape sequences, split into lines by any newline convention,
select the line at the fixed index 2, split it on `:` and take the second
segment, split that on `(` and take the first segment, trim surrounding
white space. -/
def specExtract (report : List Char) : Option (List Char) :=
  match (splitLines (stripAnsi report))[2]? with
  | none => none
  | some summaryLine =>
    match (splitOnChar ':' summaryLine)[1]? with
    | none => none
    | some afterLabel =>
      match (splitOnChar '(' afterLabel)[0]? with
      | none => none
      | some tok => some (jsTrim tok)

/-- The classification exactly as claim C2 words it: green if the numeric
prefix parses to a floating-point value greater than or equal to 90.0,
and red otherwise (so red whenever `parseFloat` yields `NaN`). -/
def specColorC2 (coverage : List Char) : BadgeColor :=
  match parseFloat coverage with
  | .num q => if 90 ≤ q then .green else .red
  | .posInf => .green
  | .negInf => .red
  | .nan => .red

/-- A coverage report whose third line is
`Statements   : 92.5% ( 370/400 )`. -/
def demoReport : List Char :=
  ("=============== Coverage summary ===============\nLines        : 95.0% ( 380/400 )\nStatements   : 92.5% ( 370/400 )\nBranches     : 80.0% ( 80/100 )").toList

/-! ## Theorems for the claims -/

set_option maxRecDepth 100000 in
/-- C1: for every coverage report text, the percentage extractor strips
terminal escape sequences, splits the text into lines by any newline
convention, selects the line at index 2, splits it on `:` and takes the
second segment, splits that on `(` and takes the first segment, and trims
white space; and on a report whose third line is
`Statements   : 92.5% ( 370/400 )` it yields the percentage string
`92.5%`. -/
theorem extractCoverage_follows_spec :
    (∀ report, extractCoverage report = specExtract report) ∧
    extractCoverage demoReport = some (("92.5%").toList) := by
  constructor
  · intro report
    cases h2 : (splitLines (stripAnsi report))[2]? with
    | none => simp [extractCoverage, specExtract, h2]
    | some line =>
      cases h1 : (splitOnChar ':' line)[1]? with
      | none => simp [extractCoverage, specExtract, h2, h1]
      | some seg =>
        cases h0 : (splitOnChar '(' seg)[0]? with
        | none => simp [extractCoverage, specExtract, h2, h1, h0]
        | some tok => simp [extractCoverage, specExtract, h2, h1, h0]
  · decide

/-- C2 counterexample: for the extracted percentage token `N/A` (whose
numeric prefix does not parse, so `parseFloat` yields `NaN`), the code's
classification is green while the claim as stated demands red. -/
theorem colorOf_differs_from_claimC2_on_NA :
    colorOf (("N/A").toList) ≠ specColorC2 (("N/A").toList) := by decide

/-- C2 amended: the classification color is green exactly when
`parseFloat` of the percentage string yields `NaN`, positive infinity, or
a numeric value greater than or equal to 90; it is red exactly when the
parse yields a numeric value below 90 or negative infinity. -/
theorem colorOf_green_characterization (coverage : List Char) :
    colorOf coverage = BadgeColor.green ↔
      (parseFloat coverage = JsVal.nan ∨ parseFloat coverage = JsVal.posInf ∨
       ∃ q : ℚ, parseFloat coverage = JsVal.num q ∧ 90 ≤ q) := by
  cases h : parseFloat coverage with
  | nan => simp [colorOf, jsLtNinety, h]
  | posInf => simp [colorOf, jsLtNinety, h]
  | negInf => simp [colorOf, jsLtNinety, h]
  | num q =>
    by_cases hq : q < 90
    · simp [colorOf, jsLtNinety, h, hq, not_le.mpr hq]
    · simp [colorOf, jsLtNinety, h, hq, not_lt.mp hq]

/-- C3: when the value delivered to the badge-fetch response handler is
itself an error object, the handler logs it via `console.error` and
terminates the process with exit code 0, and does not pipe anything to
disk. -/
theorem badgeResponseHandler_error_exits_zero (err : List Char) :
    badgeResponseHandler (BadgeResponse.isError err) =
      [BadgeAction.logError err, BadgeAction.exitProcess 0] := rfl

/-- C4: for every percentage string and color, the badge URL is the fixed
template `https://img.shields.io/badge/coverage-<pct>-<color>.svg` with
every `%` of the percentage string replaced by `%25` and all other
characters unchanged; and for the percentage `92.5%` the request path
contains the substring `92.5%25`. -/
theorem buildBadgeUrl_follows_spec :
    (∀ coverage color, buildBadgeUrl coverage color =
        ("https://img.shields.io/badge/coverage-").toList ++
        (coverage.flatMap
          (fun c => if c = '%' then ("%25").toList else [c])) ++
        ("-").toList ++ colorText color ++ (".svg").toList) ∧
    (∃ pre suf, buildBadgeUrl (("92.5%").toList) BadgeColor.green =
        pre ++ ("92.5%25").toList ++ suf) :=
  ⟨fun _ _ => rfl,
   ⟨("https://img.shields.io/badge/coverage-").toList,
    ("-green.svg").toList, by decide⟩⟩

/-- C5: on an error event of the end-to-end test run, the process exits
with code 1 and badge generation does not occur. -/
theorem e2e_error_exits_one_without_badge :
    e2eEventActions E2EEvent.errorEvt = [E2EAction.exitProcess 1] ∧
    E2EAction.generateBadge ∉ e2eEventActions E2EEvent.errorEvt := by decide

/-- C6: on any bundling/transform failure, the bundle error handler logs
the failure and signals end-of-stream, and performs no fatal action: it
neither re-emits an error nor exits the process. -/
theorem bundleOnError_logs_and_ends (err : List Char) :
    bundleOnError err = [StreamAction.log err, StreamAction.emitEnd] ∧
    (∀ n, StreamAction.exitProcess n ∉ bundleOnError err) ∧
    (∀ e, StreamAction.emitError e ∉ bundleOnError err) := by
  refine ⟨rfl, ?_, ?_⟩ <;> intro x <;> simp [bundleOnError]

/-- C7: in the spec test runner's completion callback, a bound server
handle is stopped before the task signals its own completion, and this is
independent of the exit code the test environment reports (the callback
ignores it); with no bound handle the callback only signals completion. -/
theorem specTestCallback_stops_before_done (h : ServerHandle)
    (karmaExitCode : Nat) :
    specTestCallback (some h) karmaExitCode =
      [SpecAction.stopServer h, SpecAction.signalDone] ∧
    specTestCallback none karmaExitCode = [SpecAction.signalDone] :=
  ⟨rfl, rfl⟩

/-- C8: when the coverage report is malformed — fewer than three lines
after stripping, or a third line whose split on `:` has no second
segment — the extractor produces no value (in the JavaScript original,
indexing yields `undefined` and the chained `.split` throws an uncaught
error terminating the badge generation; there is no recovery path). -/
theorem extractCoverage_malformed_none (report : List Char)
    (h : (splitLines (stripAnsi report)).length < 3 ∨
         ∃ line, (splitLines (stripAnsi report))[2]? = some line ∧
                 (splitOnChar ':' line).length < 2) :
    extractCoverage report = none := by
  rcases h with h | ⟨line, hline, hlen⟩
  · have h2 : (splitLines (stripAnsi report))[2]? = none :=
      List.getElem?_eq_none (by omega)
    simp [extractCoverage, h2]
  · have h2 : (splitOnChar ':' line)[1]? = none :=
      List.getElem?_eq_none (by omega)
    simp [extractCoverage, hline, h2]

/-- C8 witness: the two-character report `ab` has a single line, so the
extractor produces no value. -/
theorem extractCoverage_malformed_none_witness :
    (splitLines (stripAnsi (("ab").toList))).length < 3 ∧
    extractCoverage (("ab").toList) = none :=
  ⟨by decide,
   extractCoverage_malformed_none (("ab").toList) (Or.inl (by decide))⟩

/-- C9: the composite `test` task declares only `test:spec` as a
prerequisite and its action starts `test:e2e`; `test:e2e` is not among
the declared prerequisites; and the sequential execution trace of running
`test` is `lint`, then `test:spec`, then `test` (whose action then starts
`test:e2e`). -/
theorem test_task_graph :
    gulpRegistry "test" = some ⟨["test:spec"], ["test:e2e"]⟩ ∧
    "test:e2e" ∉ ((gulpRegistry "test").map GulpTask.deps).getD [] ∧
    runTrace 5 "test" = ["lint", "test:spec", "test", "test:e2e"] := by
  decide

/-- C10: whenever `parseFloat` of the extracted percentage token yields
`NaN` (the token has no parsable numeric prefix), the classification
color is green, because the red branch requires `parseFloat(coverage) <
90` to evaluate to true and a comparison with `NaN` never does. -/
theorem colorOf_nan_is_green (coverage : List Char)
    (h : parseFloat coverage = JsVal.nan) :
    colorOf coverage = BadgeColor.green := by
  simp [colorOf, jsLtNinety, h]

/-- C10 witness: the token `N/A` has no parsable numeric prefix and is
classified green. -/
theorem colorOf_nan_is_green_witness :
    parseFloat (("N/A").toList) = JsVal.nan ∧
    colorOf (("N/A").toList) = BadgeColor.green :=
  ⟨by decide, colorOf_nan_is_green (("N/A").toList) (by decide)⟩

end CanvasGauges
